import Mathlib

/-!
Verification of the credential / session-token core of the `app-flask`
repository (two Flask variants: `src/be` with direct SQLite access and
`src/app` with SQLAlchemy).  The Python functions are shallowly embedded
as executable Lean definitions; the HTTP layer is reduced to the data the
handlers actually consume (parsed JSON body, `Authorization` header, a
clock value), and the SQLite `users` table is a list of rows.
-/

namespace FlaskAuth

/-! ## Input validation (`src/be/app/utils/validation.py`) -/

/-- Character class `[a-zA-Z0-9._%+-]`: the local part of the email regex. -/
def isLocalChar (c : Char) : Bool :=
  c.isAlpha || c.isDigit || c == '.' || c == '_' || c == '%' || c == '+' || c == '-'

/-- Character class `[a-zA-Z0-9.-]`: the domain part of the email regex. -/
def isDomainChar (c : Char) : Bool :=
  c.isAlpha || c.isDigit || c == '.' || c == '-'

/-- Tail of the email regex, `[a-zA-Z0-9.-]+\.[a-zA-Z]{2,}$`, applied to the
characters after the `@`.  Because the TLD class `[a-zA-Z]` contains no dot,
the regex can only match by splitting at the LAST dot of the string; we
compile it to that deterministic check: reverse the characters, take the
maximal alphabetic suffix as TLD candidate, and require a preceding dot with
a non-empty `[a-zA-Z0-9.-]` prefix before it. -/
def emailDomainOk (ds : List Char) : Bool :=
  match ds.reverse.dropWhile Char.isAlpha with
  | c :: ys =>
    c == '.' && decide (2 ≤ (ds.reverse.takeWhile Char.isAlpha).length)
      && !ys.isEmpty && ys.all isDomainChar
  | [] => false

/-- Python's `$` (without `re.MULTILINE`) matches at the end of the
string or just before one final newline, so an anchored `re.match`
tries the pattern body against the whole string and against the string
with a single trailing `'\n'` removed.  This helper removes that final
newline when present and is the identity otherwise. -/
def stripFinalNewline (cs : List Char) : List Char :=
  match cs.reverse with
  | c :: rest => if c == '\n' then rest.reverse else cs
  | [] => cs

/-- The body `[a-zA-Z0-9._%+-]+@[a-zA-Z0-9.-]+\.[a-zA-Z]{2,}` of the
email regex, matched against a whole character list.  Neither character
class contains `@`, so a match must split at the first `@`; the local
part is the maximal run of local characters. -/
def emailRegexBody (cs : List Char) : Bool :=
  match cs.dropWhile isLocalChar with
  | c :: ds =>
    c == '@' && !(cs.takeWhile isLocalChar).isEmpty && emailDomainOk ds
  | [] => false

/-- `validate_email` from `validation.py`: `re.match` of
`^[a-zA-Z0-9._%+-]+@[a-zA-Z0-9.-]+\.[a-zA-Z]{2,}$`.  `re.match` anchors
at the start, and `$` matches at the end of the string or just before a
single trailing newline, so the body may consume everything or
everything but one final `'\n'`. -/
def validate_email (s : String) : Bool :=
  emailRegexBody s.data || emailRegexBody (stripFinalNewline s.data)

/-- `validate_password` from `validation.py`: length at least 8, and
`re.search` for `[A-Z]`, `[a-z]` and `\d` must all succeed (modelled over
the ASCII ranges the spec and the examples use). -/
def validate_password (password : String) : Bool :=
  if password.length < 8 then false
  else password.data.any Char.isUpper
    && password.data.any Char.isLower
    && password.data.any Char.isDigit

/-- Character class `[a-zA-Z0-9_]` of the username regex. -/
def isUsernameChar (c : Char) : Bool :=
  c.isAlpha || c.isDigit || c == '_'

/-- The body `[a-zA-Z0-9_]+` of the username regex, matched against a
whole character list. -/
def usernameRegexBody (cs : List Char) : Bool :=
  !cs.isEmpty && cs.all isUsernameChar

/-- `validate_username` from `validation.py`: falsy or length outside
`[3,30]` is rejected, then the anchored regex `^[a-zA-Z0-9_]+$`, whose
`$` again also matches just before a single trailing newline. -/
def validate_username (username : String) : Bool :=
  if username.isEmpty || username.length < 3 || 30 < username.length then false
  else usernameRegexBody username.data
    || usernameRegexBody (stripFinalNewline username.data)

/-! ## Password hashing (werkzeug / flask-bcrypt, external library)

`User.set_password` delegates to the library's `generate_password_hash`
and `User.check_password` to `check_password_hash`.  The derivation is
modelled from the spec (§4.1): a salted one-way function whose digest is
recomputed from the stored salt at verification time and compared; the
digest is idealized as a collision-free image of the plaintext, and the
stored string shape `method$salt$digest` is kept. -/

/-- Idealized salted digest: one output entry per plaintext character,
shifted by the salt modulo the number of Unicode scalar values (so the
map is injective in the plaintext for a fixed salt). -/
def pbkdf2_digest (salt : Nat) (password : String) : List Nat :=
  password.data.map (fun c => (c.toNat + salt) % 1114112)

/-- A stored password hash: derivation method tag, the salt, the digest. -/
structure PasswordHash where
  method : String
  salt : Nat
  digest : List Nat
deriving DecidableEq, Repr

/-- `generate_password_hash(password)` with a fresh salt chosen by the
library (passed explicitly here). -/
def generate_password_hash (salt : Nat) (password : String) : PasswordHash :=
  ⟨"pbkdf2:sha256", salt, pbkdf2_digest salt password⟩

/-- `check_password_hash(pwhash, password)`: re-derive with the salt and
method stored in the hash and compare.  Total: returns `false` on
mismatch, never raises. -/
def check_password_hash (pwhash : PasswordHash) (password : String) : Bool :=
  pwhash.method == "pbkdf2:sha256"
    && pwhash.digest == pbkdf2_digest pwhash.salt password

/-- The TEXT rendering of the hash as it sits in the `password_hash`
column: `method$salt$digest`. -/
def PasswordHash.toStorage (h : PasswordHash) : String :=
  h.method ++ "$" ++ Nat.repr h.salt ++ "$"
    ++ String.mk (h.digest.map (fun n => Char.ofNat (97 + n % 26)))

/-! ## User model and SQLite store (`src/be/app/models/user.py`)

The `users` table (`id INTEGER PRIMARY KEY AUTOINCREMENT`, `username`
and `email` both `TEXT NOT NULL UNIQUE`, `password_hash`, `created_at`)
is a list of rows plus the next autoincrement id.  Timestamps are
seconds since the epoch. -/

structure User where
  id : Nat
  username : String
  email : String
  password_hash : PasswordHash
  created_at : Nat
deriving DecidableEq, Repr

structure DB where
  users : List User
  nextId : Nat
deriving Repr

/-- `User.set_password`: store the salted hash of the plaintext. -/
def User.set_password (u : User) (password : String) (salt : Nat) : User :=
  { u with password_hash := generate_password_hash salt password }

/-- `User.check_password`: verify the plaintext against the stored hash. -/
def User.check_password (u : User) (password : String) : Bool :=
  check_password_hash u.password_hash password

/-- The public projection returned by `to_dict` (no `password_hash`). -/
structure UserDict where
  id : Nat
  username : String
  email : String
  created_at : Nat
deriving DecidableEq, Repr

def User.to_dict (u : User) : UserDict :=
  ⟨u.id, u.username, u.email, u.created_at⟩

/-- `SELECT * FROM users WHERE email = ?` (exact, case-sensitive compare). -/
def User.find_by_email (db : DB) (email : String) : Option User :=
  db.users.find? (fun u => u.email == email)

/-- `SELECT * FROM users WHERE id = ?`. -/
def User.find_by_id (db : DB) (user_id : Nat) : Option User :=
  db.users.find? (fun u => u.id == user_id)

/-- `User.create`: hash the password, then `INSERT INTO users ...`.  The
UNIQUE constraints on `username` and `email` make the insert raise
`IntegrityError` when either value already exists, in which case the
method returns `None` and nothing is committed. -/
def User.create (db : DB) (username email password : String)
    (salt now : Nat) : Option User × DB :=
  if db.users.any (fun v => v.username == username || v.email == email) then
    (none, db)
  else
    let u : User :=
      ⟨db.nextId, username, email, generate_password_hash salt password, now⟩
    (some u, ⟨db.users ++ [u], db.nextId + 1⟩)

/-! ## JWT token service (`generate_jwt_token` in
`src/be/app/controllers/auth_controller.py`, verification in
`src/be/app/middleware/auth_middleware.py`)

The PyJWT library is external.  Modelled from the spec (§4.2): a token
is the claim set `{user_id, exp, iat}` plus an HMAC-SHA256-class
signature over header and claims under the server secret; the primitive
is idealized as a deterministic MAC, and `jwt.decode(..., algorithms=
['HS256'])` pins the algorithm, recomputes the MAC, compares it, and
then checks `exp <= now` for expiry. -/

structure TokenPayload where
  user_id : Nat
  exp : Nat
  iat : Nat
deriving DecidableEq, Repr

/-- Modelled from the spec: the HMAC-SHA256 signature computed by PyJWT
over the token header (its `alg`) and the claim set, idealized as a
deterministic byte sequence determined by secret, algorithm and claims. -/
def hmacSig (secret : String) (alg : String) (p : TokenPayload) : List Nat :=
  secret.data.map Char.toNat ++ alg.data.map Char.toNat
    ++ [p.user_id % 256, p.exp % 256, p.iat % 256, p.user_id, p.exp, p.iat]

/-- A decoded-form JWT: claim set, declared algorithm, signature bytes. -/
structure SignedToken where
  payload : TokenPayload
  alg : String
  sig : List Nat
deriving DecidableEq, Repr

/-- `generate_jwt_token(user_id)`: claims `user_id`,
`exp = utcnow() + JWT_ACCESS_TOKEN_EXPIRES` and `iat = utcnow()`, signed
with `algorithm='HS256'` under the configured secret. -/
def generate_jwt_token (user_id : Nat) (secret : String) (now ttl : Nat) :
    SignedToken :=
  let p : TokenPayload := ⟨user_id, now + ttl, now⟩
  ⟨p, "HS256", hmacSig secret "HS256" p⟩

inductive JwtResult where
  | ok (user_id : Nat)
  | expired
  | invalid
deriving DecidableEq, Repr

/-- `jwt.decode(token, secret, algorithms=['HS256'])`: reject a token
declaring any other algorithm, reject a signature that does not equal
the recomputed MAC (`InvalidTokenError`, checked before claims), then
raise `ExpiredSignatureError` when `exp <= now`. -/
def jwt_decode (t : SignedToken) (secret : String) (now : Nat) : JwtResult :=
  if t.alg ≠ "HS256" then .invalid
  else if t.sig ≠ hmacSig secret t.alg t.payload then .invalid
  else if t.payload.exp ≤ now then .expired
  else .ok t.payload.user_id

/-! ## HTTP-level data -/

/-- A JSON response together with its status code.  Only the keys the
handlers actually emit are kept: `message`, `error`, `user`, `token`,
and the `success` flag used by the SQLAlchemy variant. -/
structure Response where
  status : Nat
  message : Option String := none
  error : Option String := none
  user : Option UserDict := none
  token : Option SignedToken := none
  success : Option Bool := none
deriving DecidableEq, Repr

/-- The `Authorization` header as the middleware sees it after
`auth_header.split(' ')`: absent, present without a second part
(`IndexError` branch), present with an empty second part (falsy token),
or carrying a token string — which either fails to parse as a JWT
(`garbage`) or parses to a signed token. -/
inductive RawToken where
  | garbage
  | signed (t : SignedToken)
deriving DecidableEq, Repr

inductive AuthHeader where
  | missing
  | malformedFormat
  | emptyToken
  | withToken (r : RawToken)
deriving DecidableEq, Repr

/-! ## Request handlers (`src/be/app/controllers/auth_controller.py` and
`src/be/app/middleware/auth_middleware.py`)

A parsed JSON body is `none` when absent; a field is `none` when its key
is missing (the `all(k in data for k in ...)` check). -/

/-- Python's `str.strip()`: drop leading and trailing whitespace. -/
def pyStrip (s : String) : String :=
  ⟨((s.data.dropWhile Char.isWhitespace).reverse.dropWhile Char.isWhitespace).reverse⟩

/-- Python's `str.lower()`, over the ASCII range the validators use. -/
def pyLower (s : String) : String :=
  ⟨s.data.map Char.toLower⟩

structure RegisterBody where
  username : Option String
  email : Option String
  password : Option String

structure LoginBody where
  email : Option String
  password : Option String

/-- `register()`: require the three keys; strip the username, strip and
lower-case the email, take the password verbatim; check username length,
email format, password strength; check email uniqueness (409); create
the user (a `None` from `User.create`, e.g. a duplicate username, is
500); answer 201 with the public user dict and a fresh token. -/
def register (db : DB) (body : Option RegisterBody)
    (salt now ttl : Nat) (secret : String) : Response × DB :=
  match body with
  | none => ({ status := 400, error := some "Username, email y password son requeridos" }, db)
  | some b =>
    match b.username, b.email, b.password with
    | some un, some em, some pw =>
      let username := pyStrip un
      let email := pyLower (pyStrip em)
      if username.length < 3 then
        ({ status := 400, error := some "El username debe tener al menos 3 caracteres" }, db)
      else if !validate_email email then
        ({ status := 400, error := some "El email no es válido" }, db)
      else if !validate_password pw then
        ({ status := 400, error := some "La contraseña debe tener al menos 8 caracteres, una mayúscula, una minúscula y un número" }, db)
      else if (User.find_by_email db email).isSome then
        ({ status := 409, error := some "El email ya está registrado" }, db)
      else
        match User.create db username email pw salt now with
        | (none, db') => ({ status := 500, error := some "Error al crear el usuario" }, db')
        | (some u, db') =>
          ({ status := 201, message := some "Usuario registrado exitosamente",
             user := some u.to_dict,
             token := some (generate_jwt_token u.id secret now ttl) }, db')
    | _, _, _ => ({ status := 400, error := some "Username, email y password son requeridos" }, db)

/-- `login()`: require both keys; strip and lower-case the email, take
the password verbatim; look the user up by email and verify the
password; a missing user and a wrong password share one generic 401. -/
def login (db : DB) (body : Option LoginBody)
    (now ttl : Nat) (secret : String) : Response :=
  match body with
  | none => { status := 400, error := some "Email y password son requeridos" }
  | some b =>
    match b.email, b.password with
    | some em, some pw =>
      let email := pyLower (pyStrip em)
      match User.find_by_email db email with
      | none => { status := 401, error := some "Credenciales inválidas" }
      | some user =>
        if user.check_password pw then
          { status := 200, message := some "Login exitoso",
            user := some user.to_dict,
            token := some (generate_jwt_token user.id secret now ttl) }
        else { status := 401, error := some "Credenciales inválidas" }
    | _, _ => { status := 400, error := some "Email y password son requeridos" }

/-- `require_auth`: extract the bearer token (absent header, header
without a second part, or empty token each give their own 401), decode
the JWT (expired and invalid each give their own 401), then require the
subject to exist in the store — a valid token for an unknown id gives
401 `Usuario no encontrado`.  On success the verified `user_id` is
passed to the wrapped handler. -/
def require_auth (db : DB) (h : AuthHeader) (secret : String) (now : Nat) :
    Except Response Nat :=
  match h with
  | .missing => .error { status := 401, error := some "Token de autorización requerido" }
  | .malformedFormat => .error { status := 401, error := some "Formato de token inválido" }
  | .emptyToken => .error { status := 401, error := some "Token de autorización requerido" }
  | .withToken .garbage => .error { status := 401, error := some "Token inválido" }
  | .withToken (.signed t) =>
    match jwt_decode t secret now with
    | .expired => .error { status := 401, error := some "Token expirado" }
    | .invalid => .error { status := 401, error := some "Token inválido" }
    | .ok uid =>
      match User.find_by_id db uid with
      | none => .error { status := 401, error := some "Usuario no encontrado" }
      | some _ => .ok uid

/-- `get_profile()`: read `request.user_id` set by the middleware (its
absence gives 401), look the user up by id, 404 when absent, else 200
with the public dict. -/
def get_profile (db : DB) (user_id : Option Nat) : Response :=
  match user_id with
  | none => { status := 401, error := some "Token de autorización requerido" }
  | some uid =>
    match User.find_by_id db uid with
    | none => { status := 404, error := some "Usuario no encontrado" }
    | some u => { status := 200, user := some u.to_dict }

/-- `GET /api/auth/profile` in the SQLite variant: `get_profile` behind
`@require_auth`. -/
def profile_route (db : DB) (h : AuthHeader) (secret : String) (now : Nat) :
    Response :=
  match require_auth db h secret now with
  | .error r => r
  | .ok uid => get_profile db (some uid)

/-! ## The SQLAlchemy variant's profile endpoint
(`src/app/routes/auth_routes.py`, `src/app/models/user.py`) -/

structure AppUser where
  id : Nat
  email : String
  nombres : String
  apellidos : String
  password_hash : PasswordHash
deriving DecidableEq, Repr

structure AppDB where
  users : List AppUser
deriving Repr

/-- `User.find_by_id` / `User.query.get` of the SQLAlchemy model. -/
def AppUser.find_by_id (db : AppDB) (user_id : Nat) : Option AppUser :=
  db.users.find? (fun u => u.id == user_id)

/-- The schema dump of an `AppUser` (no `password_hash`). -/
structure AppUserDict where
  id : Nat
  email : String
  nombres : String
  apellidos : String
deriving DecidableEq, Repr

def AppUser.dump (u : AppUser) : AppUserDict :=
  ⟨u.id, u.email, u.nombres, u.apellidos⟩

/-- `get_profile` of the SQLAlchemy variant: `@jwt_required()` rejects a
missing, malformed, expired or invalid token with 401 (flask-jwt-extended
behaviour, same verification as `jwt_decode`); with a valid token the
handler itself looks the subject up and answers 404 `Usuario no
encontrado` when no record exists, else 200. -/
def app_get_profile (db : AppDB) (h : AuthHeader) (secret : String)
    (now : Nat) : Response × Option AppUserDict :=
  match h with
  | .withToken (.signed t) =>
    match jwt_decode t secret now with
    | .ok uid =>
      match AppUser.find_by_id db uid with
      | none =>
        ({ status := 404, success := some false, message := some "Usuario no encontrado" }, none)
      | some u => ({ status := 200, success := some true }, some u.dump)
    | .expired => ({ status := 401 }, none)
    | .invalid => ({ status := 401 }, none)
  | _ => ({ status := 401 }, none)

/-! ## Helper lemmas -/

theorem takeWhile_append_cons {α : Type} (p : α → Bool) (l : List α) (x : α)
    (rest : List α) (hall : ∀ c ∈ l, p c = true) (hx : p x = false) :
    (l ++ x :: rest).takeWhile p = l ∧ (l ++ x :: rest).dropWhile p = x :: rest := by
  induction l with
  | nil => simp [List.takeWhile_cons, List.dropWhile_cons, hx]
  | cons a l ih =>
    have ha : p a = true := hall a (by simp)
    have h' := ih (fun c hc => hall c (by simp [hc]))
    simp [List.takeWhile_cons, List.dropWhile_cons, ha, h'.1, h'.2]

theorem stripFinalNewline_append_newline (ds : List Char) :
    stripFinalNewline (ds ++ ['\n']) = ds := by
  unfold stripFinalNewline
  rw [List.reverse_append]
  simp

theorem stripFinalNewline_cases (cs : List Char) :
    (∃ ds, cs = ds ++ ['\n'] ∧ stripFinalNewline cs = ds)
    ∨ stripFinalNewline cs = cs := by
  rcases hrev : cs.reverse with - | ⟨c, rest⟩
  · right
    unfold stripFinalNewline
    rw [hrev]
  · by_cases hc : c = '\n'
    · left
      refine ⟨rest.reverse, ?_, ?_⟩
      · have h2 := congrArg List.reverse hrev
        simp only [List.reverse_reverse, List.reverse_cons] at h2
        rw [h2, hc]
      · unfold stripFinalNewline
        rw [hrev]
        simp [hc]
    · right
      unfold stripFinalNewline
      rw [hrev]
      simp [hc]

/-! ## Claim theorems -/

/-- The password-strength policy exactly as the spec words it. -/
def PasswordSpec (p : String) : Prop :=
  8 ≤ p.length ∧ (∃ c ∈ p.data, c.isUpper = true)
    ∧ (∃ c ∈ p.data, c.isLower = true) ∧ (∃ c ∈ p.data, c.isDigit = true)

/-- C6: `validate_password p` is true iff `p` has length ≥ 8 and contains
an uppercase letter, a lowercase letter and a digit; `"short1A"` is
rejected (7 chars), `"longenough1"` is rejected (no uppercase),
`"LongEnough1"` is accepted. -/
theorem C6_validate_password_policy :
    (∀ p : String, validate_password p = true ↔ PasswordSpec p)
    ∧ validate_password "short1A" = false
    ∧ validate_password "longenough1" = false
    ∧ validate_password "LongEnough1" = true := by
  refine ⟨fun p => ?_, by decide, by decide, by decide⟩
  unfold validate_password PasswordSpec
  split
  · rename_i hlen
    constructor
    · intro h; exact absurd h (by simp)
    · rintro ⟨h8, -⟩; omega
  · rename_i hlen
    simp only [Bool.and_eq_true, List.any_eq_true]
    constructor
    · rintro ⟨⟨hu, hl⟩, hd⟩
      exact ⟨by omega, hu, hl, hd⟩
    · rintro ⟨-, hu, hl, hd⟩
      exact ⟨⟨hu, hl⟩, hd⟩

/-- The `local@domain.tld` shape the spec describes, on a character
list: a non-empty local part over `[a-zA-Z0-9._%+-]`, an `@`, a
non-empty domain over `[a-zA-Z0-9.-]`, a final dot, and a TLD of at
least two letters. -/
def EmailSpecCore (cs : List Char) : Prop :=
  ∃ l d t : List Char,
    cs = l ++ '@' :: (d ++ '.' :: t) ∧
    l ≠ [] ∧ (∀ c ∈ l, isLocalChar c = true) ∧
    d ≠ [] ∧ (∀ c ∈ d, isDomainChar c = true) ∧
    (∀ c ∈ t, c.isAlpha = true) ∧ 2 ≤ t.length

/-- The claim's email shape: the whole string is `local@domain.tld`. -/
def EmailSpec (s : String) : Prop :=
  EmailSpecCore s.data

/-- What Python's anchored regex actually accepts: the
`local@domain.tld` shape, possibly followed by one trailing newline
(which `$` tolerates). -/
def EmailSpecPy (s : String) : Prop :=
  EmailSpecCore s.data ∨ ∃ cs, s.data = cs ++ ['\n'] ∧ EmailSpecCore cs

theorem emailDomainOk_iff (ds : List Char) :
    emailDomainOk ds = true ↔
      ∃ d t : List Char, ds = d ++ '.' :: t ∧ d ≠ [] ∧
        (∀ c ∈ d, isDomainChar c = true) ∧ (∀ c ∈ t, c.isAlpha = true) ∧
        2 ≤ t.length := by
  constructor
  · intro h
    unfold emailDomainOk at h
    split at h
    · rename_i c ys heq
      simp only [Bool.and_eq_true, beq_iff_eq, decide_eq_true_eq,
        Bool.not_eq_true', List.all_eq_true] at h
      obtain ⟨⟨⟨hc, hlen⟩, hys⟩, hall⟩ := h
      subst hc
      have hsplit : ds.reverse = ds.reverse.takeWhile Char.isAlpha ++ '.' :: ys := by
        conv_lhs => rw [← List.takeWhile_append_dropWhile Char.isAlpha ds.reverse]
        rw [heq]
      refine ⟨ys.reverse, (ds.reverse.takeWhile Char.isAlpha).reverse, ?_, ?_, ?_, ?_, ?_⟩
      · have h2 := congrArg List.reverse hsplit
        simpa [List.reverse_append, List.reverse_cons, List.append_assoc] using h2
      · simpa [List.reverse_eq_nil_iff] using (List.isEmpty_eq_false.mp hys)
      · intro c hc
        exact hall c (List.mem_reverse.mp hc)
      · intro c hc
        exact List.mem_takeWhile_imp (List.mem_reverse.mp hc)
      · simpa [List.length_reverse] using hlen
    · exact absurd h (by simp)
  · rintro ⟨d, t, hds, hd0, hdall, htall, htlen⟩
    have h1 : ds.reverse = t.reverse ++ '.' :: d.reverse := by
      rw [hds]; simp [List.reverse_append, List.reverse_cons, List.append_assoc]
    have halpha : ∀ c ∈ t.reverse, Char.isAlpha c = true :=
      fun c hc => htall c (List.mem_reverse.mp hc)
    have hdot : Char.isAlpha '.' = false := by decide
    obtain ⟨htake, hdrop⟩ :=
      takeWhile_append_cons Char.isAlpha t.reverse '.' d.reverse halpha hdot
    unfold emailDomainOk
    rw [h1, hdrop, htake]
    simp only [Bool.and_eq_true, beq_iff_eq, decide_eq_true_eq,
      Bool.not_eq_true', List.all_eq_true, List.length_reverse]
    refine ⟨⟨⟨trivial, htlen⟩, ?_⟩, ?_⟩
    · simp [List.isEmpty_eq_false, List.reverse_eq_nil_iff, hd0]
    · intro c hc
      exact hdall c (List.mem_reverse.mp hc)

/-- The regex body accepts a character list exactly when it decomposes
as the `local@domain.tld` shape. -/
theorem emailRegexBody_iff (cs : List Char) :
    emailRegexBody cs = true ↔ EmailSpecCore cs := by
  constructor
  · intro h
    unfold emailRegexBody at h
    split at h
    · rename_i c ds heq
      simp only [Bool.and_eq_true, beq_iff_eq, Bool.not_eq_true'] at h
      obtain ⟨⟨hc, hne⟩, hdom⟩ := h
      subst hc
      have hsplit : cs = cs.takeWhile isLocalChar ++ '@' :: ds := by
        conv_lhs => rw [← List.takeWhile_append_dropWhile isLocalChar cs]
        rw [heq]
      obtain ⟨d, t, hds, hd0, hdall, htall, htlen⟩ := (emailDomainOk_iff ds).mp hdom
      refine ⟨cs.takeWhile isLocalChar, d, t, ?_, ?_, ?_, hd0, hdall, htall, htlen⟩
      · rw [← hds]; exact hsplit
      · exact List.isEmpty_eq_false.mp hne
      · intro c hc
        exact List.mem_takeWhile_imp hc
    · exact absurd h (by simp)
  · rintro ⟨l, d, t, hdata, hl0, hlall, hd0, hdall, htall, htlen⟩
    have hat : isLocalChar '@' = false := by decide
    obtain ⟨htake, hdrop⟩ :=
      takeWhile_append_cons isLocalChar l '@' (d ++ '.' :: t) hlall hat
    unfold emailRegexBody
    rw [hdata, hdrop, htake]
    simp only [Bool.and_eq_true, beq_iff_eq, Bool.not_eq_true']
    refine ⟨⟨trivial, by simp [List.isEmpty_eq_false, hl0]⟩, ?_⟩
    exact (emailDomainOk_iff _).mpr ⟨d, t, rfl, hd0, hdall, htall, htlen⟩

/-- C7 counterexample: Python's `$` also matches just before a trailing
newline, so `validate_email` accepts `"a@b.co\n"`, a string that does
NOT have the claimed `local@domain.tld` shape (its last character is a
newline, not a TLD letter). -/
theorem C7_validate_email_shape_counterexample :
    validate_email "a@b.co\n" = true ∧ ¬ EmailSpec "a@b.co\n" := by
  refine ⟨by decide, ?_⟩
  intro h
  have hb : emailRegexBody "a@b.co\n".data = true := (emailRegexBody_iff _).mpr h
  exact absurd hb (by decide)

/-- C7 (amended): `validate_email s` is true iff `s` — taken whole or,
per Python's `$` semantics, after removing one single trailing
newline — decomposes as `local@domain.tld` with a non-empty
`[a-zA-Z0-9._%+-]` local part, a non-empty domain, a final dot, and a
TLD of at least 2 letters; `"a@b.co"` and `"a@b.co\n"` are accepted,
`"not-an-email"` and `"a@b"` are rejected. -/
theorem C7_validate_email_shape_amended :
    (∀ s : String, validate_email s = true ↔ EmailSpecPy s)
    ∧ validate_email "a@b.co" = true
    ∧ validate_email "a@b.co\n" = true
    ∧ validate_email "not-an-email" = false
    ∧ validate_email "a@b" = false := by
  refine ⟨fun s => ?_, by decide, by decide, by decide, by decide⟩
  unfold validate_email EmailSpecPy
  rw [Bool.or_eq_true]
  constructor
  · rintro (h | h)
    · exact Or.inl ((emailRegexBody_iff _).mp h)
    · rcases stripFinalNewline_cases s.data with ⟨ds, hds, hstrip⟩ | hid
      · exact Or.inr ⟨ds, hds, (emailRegexBody_iff ds).mp (hstrip ▸ h)⟩
      · exact Or.inl ((emailRegexBody_iff _).mp (hid ▸ h))
  · rintro (h | ⟨cs, hcs, hspec⟩)
    · exact Or.inl ((emailRegexBody_iff _).mpr h)
    · right
      rw [hcs, stripFinalNewline_append_newline]
      exact (emailRegexBody_iff cs).mpr hspec

theorem string_data_inj {a b : String} (h : a.data = b.data) : a = b := by
  cases a; cases b; simp_all

theorem char_toNat_lt_scalar (c : Char) : c.toNat < 1114112 := by
  have hv := c.valid
  have h2 : c.toNat = c.val.toNat := rfl
  rcases hv with h | h
  · omega
  · omega

/-- For a fixed salt the idealized digest determines the plaintext. -/
theorem pbkdf2_digest_inj (salt : Nat) {p q : String}
    (h : pbkdf2_digest salt p = pbkdf2_digest salt q) : p = q := by
  apply string_data_inj
  apply List.map_injective_iff.mpr _ h
  intro a b hab
  simp only at hab
  have ha := char_toNat_lt_scalar a
  have hb := char_toNat_lt_scalar b
  have h2 : a.toNat % 1114112 = b.toNat % 1114112 :=
    Nat.ModEq.add_right_cancel rfl hab
  rw [Nat.mod_eq_of_lt ha, Nat.mod_eq_of_lt hb] at h2
  exact Char.ext (UInt32.eq_of_val_eq (Fin.eq_of_val_eq h2))

theorem toStorage_length (h : PasswordHash) :
    h.toStorage.length
      = h.method.length + 1 + (Nat.repr h.salt).length + 1 + h.digest.length := by
  show h.toStorage.data.length
    = h.method.data.length + 1 + (Nat.repr h.salt).data.length + 1 + h.digest.length
  simp only [PasswordHash.toStorage, String.data_append, List.length_append,
    List.length_map, List.length_cons, List.length_nil]

/-- C2: a record whose password was set from plaintext `p` verifies `p`,
rejects (returns `false`, it cannot raise) every other plaintext `q`,
and its stored `password_hash` text never equals `p`. -/
theorem C2_check_password_roundtrip (u0 : User) (salt : Nat) (p q : String)
    (hq : q ≠ p) :
    (u0.set_password p salt).check_password p = true
    ∧ (u0.set_password p salt).check_password q = false
    ∧ (u0.set_password p salt).password_hash.toStorage ≠ p := by
  refine ⟨?_, ?_, ?_⟩
  · simp [User.set_password, User.check_password, check_password_hash,
      generate_password_hash]
  · simp only [User.set_password, User.check_password, check_password_hash,
      generate_password_hash, Bool.and_eq_false_iff]
    right
    rw [beq_eq_false_iff_ne]
    intro hdig
    exact hq (pbkdf2_digest_inj salt hdig).symm
  · intro heq
    have hlen := congrArg String.length heq
    rw [toStorage_length] at hlen
    simp only [User.set_password, generate_password_hash] at hlen
    have hd : (pbkdf2_digest salt p).length = p.length := by
      simp [pbkdf2_digest]
    simp only [hd] at hlen
    have hm : ("pbkdf2:sha256" : String).length = 13 := by decide
    rw [hm] at hlen
    omega

/-- Witness for C2 at concrete inputs. -/
theorem C2_check_password_roundtrip_witness :
    ((⟨0, "user1", "x@y.co", ⟨"", 0, []⟩, 0⟩ : User).set_password "Passw0rd1" 3).check_password "Passw0rd1" = true
    ∧ ((⟨0, "user1", "x@y.co", ⟨"", 0, []⟩, 0⟩ : User).set_password "Passw0rd1" 3).check_password "wrong" = false
    ∧ ((⟨0, "user1", "x@y.co", ⟨"", 0, []⟩, 0⟩ : User).set_password "Passw0rd1" 3).password_hash.toStorage ≠ "Passw0rd1" :=
  C2_check_password_roundtrip ⟨0, "user1", "x@y.co", ⟨"", 0, []⟩, 0⟩ 3
    "Passw0rd1" "wrong" (by decide)

theorem set_ne_of_ne (l : List Nat) (i b : Nat) (h : i < l.length)
    (hb : b ≠ l[i]) : l.set i b ≠ l := by
  intro he
  apply hb
  have h2 : (l.set i b).getD i 0 = l.getD i 0 := by rw [he]
  rwa [List.getD_eq_getElem _ _ (by simpa using h), List.getD_eq_getElem _ _ h,
    List.getElem_set_self] at h2

/-- C1: a token issued by `generate_jwt_token uid` decodes back to `uid`
under the same secret before expiry; once the clock passes `exp` the
middleware answers 401 `Token expirado`; and altering any byte of the
signature makes the middleware answer 401 `Token inválido` instead of
accepting any id. -/
theorem C1_jwt_issue_verify (uid : Nat) (secret : String) (now ttl : Nat)
    (httl : 0 < ttl) :
    jwt_decode (generate_jwt_token uid secret now ttl) secret now
      = JwtResult.ok uid
    ∧ (∀ (db : DB) (later : Nat), now + ttl < later →
        require_auth db
            (.withToken (.signed (generate_jwt_token uid secret now ttl)))
            secret later
          = .error { status := 401, error := some "Token expirado" })
    ∧ (∀ (i b : Nat),
        (hi : i < (generate_jwt_token uid secret now ttl).sig.length) →
        b ≠ (generate_jwt_token uid secret now ttl).sig[i] →
        ∀ (db : DB) (t' : Nat),
        require_auth db
            (.withToken (.signed
              ⟨(generate_jwt_token uid secret now ttl).payload,
               (generate_jwt_token uid secret now ttl).alg,
               (generate_jwt_token uid secret now ttl).sig.set i b⟩))
            secret t'
          = .error { status := 401, error := some "Token inválido" }) := by
  refine ⟨?_, ?_, ?_⟩
  · simp only [generate_jwt_token, jwt_decode]
    rw [if_neg (by simp), if_neg (by simp), if_neg (by omega)]
  · intro db later hlater
    simp only [generate_jwt_token, require_auth, jwt_decode]
    rw [if_neg (by simp), if_neg (by simp), if_pos (by omega)]
  · intro i b hi hb db t'
    simp only [generate_jwt_token, require_auth, jwt_decode] at *
    rw [if_neg (by simp), if_pos]
    simp only [ne_eq]
    exact set_ne_of_ne _ i b hi hb

/-- Witness for C1 at concrete inputs (`uid = 7`, secret `"s"`, issued at
time 0 with a 24-unit TTL, checked at times 0 and 25, first signature
byte overwritten with 0). -/
theorem C1_jwt_issue_verify_witness :
    jwt_decode (generate_jwt_token 7 "s" 0 24) "s" 0 = JwtResult.ok 7
    ∧ require_auth ⟨[], 1⟩
        (.withToken (.signed (generate_jwt_token 7 "s" 0 24))) "s" 25
        = .error { status := 401, error := some "Token expirado" }
    ∧ require_auth ⟨[], 1⟩
        (.withToken (.signed
          ⟨(generate_jwt_token 7 "s" 0 24).payload,
           (generate_jwt_token 7 "s" 0 24).alg,
           (generate_jwt_token 7 "s" 0 24).sig.set 0 0⟩)) "s" 0
        = .error { status := 401, error := some "Token inválido" } := by
  have h := C1_jwt_issue_verify 7 "s" 0 24 (by decide)
  exact ⟨h.1, h.2.1 ⟨[], 1⟩ 25 (by decide), h.2.2 0 0 (by decide) (by decide) ⟨[], 1⟩ 0⟩

/-- Normal form of a successful registration: the conditions the
controller checks, and the exact response and store it produces. -/
theorem register_success (db : DB) (un em pw : String) (salt now ttl : Nat)
    (secret : String)
    (h3 : ¬ (pyStrip un).length < 3)
    (hve : validate_email (pyLower (pyStrip em)) = true)
    (hvp : validate_password pw = true)
    (hfe : User.find_by_email db (pyLower (pyStrip em)) = none)
    (hfu : db.users.any
      (fun v => v.username == pyStrip un || v.email == pyLower (pyStrip em))
      = false) :
    register db (some ⟨some un, some em, some pw⟩) salt now ttl secret
      = ({ status := 201, message := some "Usuario registrado exitosamente",
           user := some (User.to_dict ⟨db.nextId, pyStrip un,
             pyLower (pyStrip em), generate_password_hash salt pw, now⟩),
           token := some (generate_jwt_token db.nextId secret now ttl) },
         ⟨db.users ++ [⟨db.nextId, pyStrip un, pyLower (pyStrip em),
             generate_password_hash salt pw, now⟩], db.nextId + 1⟩) := by
  have hc : User.create db (pyStrip un) (pyLower (pyStrip em)) pw salt now
      = (some ⟨db.nextId, pyStrip un, pyLower (pyStrip em),
          generate_password_hash salt pw, now⟩,
         ⟨db.users ++ [⟨db.nextId, pyStrip un, pyLower (pyStrip em),
             generate_password_hash salt pw, now⟩], db.nextId + 1⟩) := by
    simp only [User.create]
    rw [if_neg (by simp [hfu])]
  simp only [register]
  rw [if_neg h3, if_neg (by simp [hve]), if_neg (by simp [hvp]),
    if_neg (by simp [hfe]), hc]

/-- Looking the normalized email up in the store left by a successful
registration finds the freshly inserted row. -/
theorem find_new_user (db : DB) (us : List User) (u : User)
    (hfe : User.find_by_email db u.email = none) (hus : db.users = us) :
    User.find_by_email ⟨us ++ [u], db.nextId + 1⟩ u.email = some u := by
  unfold User.find_by_email at *
  subst hus
  simp only [List.find?_append, hfe, Option.none_or]
  simp [List.find?]

/-- C3: registering the same valid payload twice: the first call answers
201 and persists the row; the second answers 409 `El email ya está
registrado`, leaves the store untouched, and the store holds exactly one
record with that (normalized) email. -/
theorem C3_duplicate_registration (db : DB) (un em pw : String)
    (salt now ttl salt2 now2 ttl2 : Nat) (secret secret2 : String)
    (h3 : ¬ (pyStrip un).length < 3)
    (hve : validate_email (pyLower (pyStrip em)) = true)
    (hvp : validate_password pw = true)
    (hfe : User.find_by_email db (pyLower (pyStrip em)) = none)
    (hfu : db.users.any
      (fun v => v.username == pyStrip un || v.email == pyLower (pyStrip em))
      = false) :
    (register db (some ⟨some un, some em, some pw⟩) salt now ttl secret).1.status
      = 201
    ∧ (register (register db (some ⟨some un, some em, some pw⟩) salt now ttl secret).2
        (some ⟨some un, some em, some pw⟩) salt2 now2 ttl2 secret2).1
      = { status := 409, error := some "El email ya está registrado" }
    ∧ (register (register db (some ⟨some un, some em, some pw⟩) salt now ttl secret).2
        (some ⟨some un, some em, some pw⟩) salt2 now2 ttl2 secret2).2
      = (register db (some ⟨some un, some em, some pw⟩) salt now ttl secret).2
    ∧ (register db (some ⟨some un, some em, some pw⟩) salt now ttl secret).2.users.countP
        (fun v => v.email == pyLower (pyStrip em)) = 1 := by
  rw [register_success db un em pw salt now ttl secret h3 hve hvp hfe hfu]
  have hfind : User.find_by_email
      ⟨db.users ++ [⟨db.nextId, pyStrip un, pyLower (pyStrip em),
        generate_password_hash salt pw, now⟩], db.nextId + 1⟩
      (pyLower (pyStrip em))
      = some ⟨db.nextId, pyStrip un, pyLower (pyStrip em),
          generate_password_hash salt pw, now⟩ :=
    find_new_user db db.users _ hfe rfl
  refine ⟨rfl, ?_, ?_, ?_⟩
  · simp only [register]
    rw [if_neg h3, if_neg (by simp [hve]), if_neg (by simp [hvp]),
      if_pos (by simp [hfind])]
  · simp only [register]
    rw [if_neg h3, if_neg (by simp [hve]), if_neg (by simp [hvp]),
      if_pos (by simp [hfind])]
  · have hz : db.users.countP (fun v => v.email == pyLower (pyStrip em)) = 0 := by
      rw [List.countP_eq_zero]
      intro v hv
      exact List.find?_eq_none.mp hfe v hv
    simp [List.countP_append, hz, List.countP_cons]

/-- Witness for C3 on an empty store and the payload
`{username: "user1", email: "x@y.co", password: "Passw0rd1"}`. -/
theorem C3_duplicate_registration_witness :
    (register ⟨[], 1⟩ (some ⟨some "user1", some "x@y.co", some "Passw0rd1"⟩)
        3 10 24 "s").1.status = 201
    ∧ (register (register ⟨[], 1⟩
          (some ⟨some "user1", some "x@y.co", some "Passw0rd1"⟩) 3 10 24 "s").2
        (some ⟨some "user1", some "x@y.co", some "Passw0rd1"⟩) 4 11 24 "s").1
      = { status := 409, error := some "El email ya está registrado" }
    ∧ (register (register ⟨[], 1⟩
          (some ⟨some "user1", some "x@y.co", some "Passw0rd1"⟩) 3 10 24 "s").2
        (some ⟨some "user1", some "x@y.co", some "Passw0rd1"⟩) 4 11 24 "s").2
      = (register ⟨[], 1⟩
          (some ⟨some "user1", some "x@y.co", some "Passw0rd1"⟩) 3 10 24 "s").2
    ∧ (register ⟨[], 1⟩ (some ⟨some "user1", some "x@y.co", some "Passw0rd1"⟩)
        3 10 24 "s").2.users.countP
        (fun v => v.email == pyLower (pyStrip "x@y.co")) = 1 :=
  C3_duplicate_registration ⟨[], 1⟩ "user1" "x@y.co" "Passw0rd1"
    3 10 24 4 11 24 "s" "s" (by decide) (by decide) (by decide) (by rfl) (by rfl)

/-- C4: a login with an unknown email and a login with a known email but
a wrong password produce the very same response: 401 with the single
generic body `Credenciales inválidas`. -/
theorem C4_login_uniform_error (db : DB) (e1 p1 e2 p2 : String)
    (now ttl now2 ttl2 : Nat) (secret secret2 : String) (u : User)
    (h1 : User.find_by_email db (pyLower (pyStrip e1)) = none)
    (h2 : User.find_by_email db (pyLower (pyStrip e2)) = some u)
    (h3 : u.check_password p2 = false) :
    login db (some ⟨some e1, some p1⟩) now ttl secret
      = login db (some ⟨some e2, some p2⟩) now2 ttl2 secret2
    ∧ login db (some ⟨some e1, some p1⟩) now ttl secret
      = { status := 401, error := some "Credenciales inválidas" } := by
  have ha : login db (some ⟨some e1, some p1⟩) now ttl secret
      = { status := 401, error := some "Credenciales inválidas" } := by
    simp only [login, h1]
  have hb : login db (some ⟨some e2, some p2⟩) now2 ttl2 secret2
      = { status := 401, error := some "Credenciales inválidas" } := by
    simp only [login, h2]
    rw [if_neg (by simp [h3])]
  exact ⟨ha.trans hb.symm, ha⟩

/-- Witness for C4: one registered user, probed with an unknown email and
with the right email but a wrong password. -/
theorem C4_login_uniform_error_witness :
    login ⟨[⟨1, "user1", "x@y.co", generate_password_hash 5 "Passw0rd1", 0⟩], 2⟩
        (some ⟨some "nobody@y.co", some "whatever"⟩) 0 24 "s"
      = login ⟨[⟨1, "user1", "x@y.co", generate_password_hash 5 "Passw0rd1", 0⟩], 2⟩
        (some ⟨some "x@y.co", some "wrong"⟩) 1 24 "s"
    ∧ login ⟨[⟨1, "user1", "x@y.co", generate_password_hash 5 "Passw0rd1", 0⟩], 2⟩
        (some ⟨some "nobody@y.co", some "whatever"⟩) 0 24 "s"
      = { status := 401, error := some "Credenciales inválidas" } :=
  C4_login_uniform_error
    ⟨[⟨1, "user1", "x@y.co", generate_password_hash 5 "Passw0rd1", 0⟩], 2⟩
    "nobody@y.co" "whatever" "x@y.co" "wrong" 0 24 1 24 "s" "s"
    ⟨1, "user1", "x@y.co", generate_password_hash 5 "Passw0rd1", 0⟩
    (by rfl) (by rfl) (by decide)

/-- C5: the email is lower-cased before it is stored and before every
lookup, so after a successful registration any upper/lower-case variant
`v` of the registered address finds the same record: `find_by_email`
(through login's normalization) returns the inserted row, login with `v`
and the right password answers 200, and a second registration attempt
under `v` hits the 409 uniqueness conflict. -/
theorem C5_email_case_normalized (db : DB) (un em pw v un2 pw2 : String)
    (salt now ttl now2 ttl2 salt3 now3 ttl3 : Nat)
    (secret secret2 secret3 : String)
    (h3 : ¬ (pyStrip un).length < 3)
    (hve : validate_email (pyLower (pyStrip em)) = true)
    (hvp : validate_password pw = true)
    (hfe : User.find_by_email db (pyLower (pyStrip em)) = none)
    (hfu : db.users.any
      (fun v => v.username == pyStrip un || v.email == pyLower (pyStrip em))
      = false)
    (hv : pyLower (pyStrip v) = pyLower (pyStrip em))
    (h3b : ¬ (pyStrip un2).length < 3)
    (hvp2 : validate_password pw2 = true) :
    User.find_by_email
        (register db (some ⟨some un, some em, some pw⟩) salt now ttl secret).2
        (pyLower (pyStrip v))
      = some ⟨db.nextId, pyStrip un, pyLower (pyStrip em),
          generate_password_hash salt pw, now⟩
    ∧ (login (register db (some ⟨some un, some em, some pw⟩) salt now ttl secret).2
        (some ⟨some v, some pw⟩) now2 ttl2 secret2).status = 200
    ∧ (register (register db (some ⟨some un, some em, some pw⟩) salt now ttl secret).2
        (some ⟨some un2, some v, some pw2⟩) salt3 now3 ttl3 secret3).1.status
      = 409 := by
  rw [register_success db un em pw salt now ttl secret h3 hve hvp hfe hfu]
  have hfind : User.find_by_email
      ⟨db.users ++ [⟨db.nextId, pyStrip un, pyLower (pyStrip em),
        generate_password_hash salt pw, now⟩], db.nextId + 1⟩
      (pyLower (pyStrip v))
      = some ⟨db.nextId, pyStrip un, pyLower (pyStrip em),
          generate_password_hash salt pw, now⟩ := by
    rw [hv]
    exact find_new_user db db.users _ hfe rfl
  refine ⟨hfind, ?_, ?_⟩
  · simp only [login, hfind]
    rw [if_pos (by simp [User.check_password, check_password_hash,
      generate_password_hash])]
  · simp only [register]
    rw [if_neg h3b, if_neg (by simp [hv, hve]), if_neg (by simp [hvp2]),
      if_pos (by simp [hfind])]

/-- Witness for C5: register `"X@Y.Co"` (stored as `"x@y.co"`), then look
it up, log in, and re-register under the variant `"x@Y.CO"`. -/
theorem C5_email_case_normalized_witness :
    User.find_by_email
        (register ⟨[], 1⟩ (some ⟨some "user1", some "X@Y.Co", some "Passw0rd1"⟩)
          3 10 24 "s").2
        (pyLower (pyStrip "x@Y.CO"))
      = some ⟨1, "user1", "x@y.co", generate_password_hash 3 "Passw0rd1", 10⟩
    ∧ (login (register ⟨[], 1⟩
          (some ⟨some "user1", some "X@Y.Co", some "Passw0rd1"⟩) 3 10 24 "s").2
        (some ⟨some "x@Y.CO", some "Passw0rd1"⟩) 11 24 "s").status = 200
    ∧ (register (register ⟨[], 1⟩
          (some ⟨some "user1", some "X@Y.Co", some "Passw0rd1"⟩) 3 10 24 "s").2
        (some ⟨some "user2", some "x@Y.CO", some "Passw0rd2"⟩) 4 12 24 "s").1.status
      = 409 :=
  C5_email_case_normalized ⟨[], 1⟩ "user1" "X@Y.Co" "Passw0rd1" "x@Y.CO"
    "user2" "Passw0rd2" 3 10 24 11 24 4 12 24 "s" "s" "s"
    (by decide) (by decide) (by decide) (by rfl) (by rfl) (by decide)
    (by decide) (by decide)

/-- C10: the password reaches hashing and verification exactly as
received — the persisted row carries the hash of the verbatim password
while username and email are stripped (and the email lower-cased); login
succeeds only with the identical string and fails with any other,
including trimmed variants of a spaced password. -/
theorem C10_password_taken_verbatim (db : DB) (un em pw : String)
    (salt now ttl now2 ttl2 now3 ttl3 : Nat) (secret secret2 secret3 : String)
    (h3 : ¬ (pyStrip un).length < 3)
    (hve : validate_email (pyLower (pyStrip em)) = true)
    (hvp : validate_password pw = true)
    (hfe : User.find_by_email db (pyLower (pyStrip em)) = none)
    (hfu : db.users.any
      (fun v => v.username == pyStrip un || v.email == pyLower (pyStrip em))
      = false) :
    (register db (some ⟨some un, some em, some pw⟩) salt now ttl secret).2.users
      = db.users ++ [⟨db.nextId, pyStrip un, pyLower (pyStrip em),
          generate_password_hash salt pw, now⟩]
    ∧ (login (register db (some ⟨some un, some em, some pw⟩) salt now ttl secret).2
        (some ⟨some em, some pw⟩) now2 ttl2 secret2).status = 200
    ∧ (∀ q : String, q ≠ pw →
        (login (register db (some ⟨some un, some em, some pw⟩) salt now ttl secret).2
          (some ⟨some em, some q⟩) now3 ttl3 secret3).status = 401) := by
  rw [register_success db un em pw salt now ttl secret h3 hve hvp hfe hfu]
  have hfind : User.find_by_email
      ⟨db.users ++ [⟨db.nextId, pyStrip un, pyLower (pyStrip em),
        generate_password_hash salt pw, now⟩], db.nextId + 1⟩
      (pyLower (pyStrip em))
      = some ⟨db.nextId, pyStrip un, pyLower (pyStrip em),
          generate_password_hash salt pw, now⟩ :=
    find_new_user db db.users _ hfe rfl
  refine ⟨rfl, ?_, ?_⟩
  · simp only [login, hfind]
    rw [if_pos (by simp [User.check_password, check_password_hash,
      generate_password_hash])]
  · intro q hq
    have hchk : ((⟨db.nextId, pyStrip un, pyLower (pyStrip em),
        generate_password_hash salt pw, now⟩ : User).check_password q) = false := by
      simp only [User.check_password, check_password_hash,
        generate_password_hash, Bool.and_eq_false_iff]
      right
      rw [beq_eq_false_iff_ne]
      intro hdig
      exact hq (pbkdf2_digest_inj salt hdig).symm
    simp only [login, hfind]
    rw [if_neg (by simp [hchk])]

/-- Witness for C10: the spaced password `" Passw0rd1 "` registers as-is
and logs in as-is, while the trimmed `"Passw0rd1"` is rejected. -/
theorem C10_password_taken_verbatim_witness :
    (register ⟨[], 1⟩ (some ⟨some "user1", some "x@y.co", some " Passw0rd1 "⟩)
        3 10 24 "s").2.users
      = [⟨1, "user1", "x@y.co", generate_password_hash 3 " Passw0rd1 ", 10⟩]
    ∧ (login (register ⟨[], 1⟩
          (some ⟨some "user1", some "x@y.co", some " Passw0rd1 "⟩) 3 10 24 "s").2
        (some ⟨some "x@y.co", some " Passw0rd1 "⟩) 11 24 "s").status = 200
    ∧ (login (register ⟨[], 1⟩
          (some ⟨some "user1", some "x@y.co", some " Passw0rd1 "⟩) 3 10 24 "s").2
        (some ⟨some "x@y.co", some "Passw0rd1"⟩) 12 24 "s").status = 401 := by
  have h := C10_password_taken_verbatim ⟨[], 1⟩ "user1" "x@y.co" " Passw0rd1 "
    3 10 24 11 24 12 24 "s" "s" "s"
    (by decide) (by decide) (by decide) (by rfl) (by rfl)
  exact ⟨by rw [h.1]; rfl, h.2.1, h.2.2 "Passw0rd1" (by decide)⟩

/-- The username rule as the spec words it: length in `[3,30]`, charset
`[A-Za-z0-9_]`. -/
def UsernameSpec (s : String) : Prop :=
  3 ≤ s.length ∧ s.length ≤ 30 ∧ ∀ c ∈ s.data, isUsernameChar c = true

/-- What `validate_username` actually accepts: length in `[3,30]`
(counting a trailing newline), and the charset rule on the whole string
or, per Python's `$` semantics, on the string minus one single trailing
newline. -/
def UsernameSpecPy (s : String) : Prop :=
  3 ≤ s.length ∧ s.length ≤ 30 ∧
    ((s.data ≠ [] ∧ ∀ c ∈ s.data, isUsernameChar c = true)
     ∨ ∃ cs, s.data = cs ++ ['\n'] ∧ cs ≠ []
         ∧ ∀ c ∈ cs, isUsernameChar c = true)

theorem usernameRegexBody_iff (cs : List Char) :
    usernameRegexBody cs = true
      ↔ cs ≠ [] ∧ ∀ c ∈ cs, isUsernameChar c = true := by
  unfold usernameRegexBody
  simp [List.isEmpty_eq_false, List.all_eq_true]

/-- C9 counterexample: the registration payload with username `"a b"`
(length 3 but containing a space, so `validate_username` rejects it) is
accepted with 201 and the record is persisted — the controller never
calls `validate_username`, it only checks the length lower bound. -/
theorem C9_username_rule_counterexample :
    validate_username "a b" = false
    ∧ (register ⟨[], 1⟩ (some ⟨some "a b", some "x@y.co", some "Passw0rd1"⟩)
        3 10 24 "s").1.status = 201
    ∧ (register ⟨[], 1⟩ (some ⟨some "a b", some "x@y.co", some "Passw0rd1"⟩)
        3 10 24 "s").2.users.any (fun u => u.username == "a b") = true := by
  refine ⟨by decide, ?_, ?_⟩ <;> rfl

/-- C9 (amended): `validate_username` implements the `[3,30]` /
`[A-Za-z0-9_]` rule only up to Python's `$` semantics — the charset
check also passes on a string whose single trailing newline precedes an
otherwise valid body, e.g. `"abc\n"` is accepted though it violates the
claimed rule — and registration never calls it anyway: it only enforces
the length lower bound, rejecting a stripped username shorter than 3
characters with 400 and persisting nothing, while the charset and the
upper bound are not checked by the registration flow. -/
theorem C9_username_rule_amended :
    (∀ s : String, validate_username s = true ↔ UsernameSpecPy s)
    ∧ validate_username "abc\n" = true
    ∧ ¬ UsernameSpec "abc\n"
    ∧ (∀ (db : DB) (un em pw : String) (salt now ttl : Nat) (secret : String),
        (pyStrip un).length < 3 →
        register db (some ⟨some un, some em, some pw⟩) salt now ttl secret
          = ({ status := 400,
               error := some "El username debe tener al menos 3 caracteres" },
             db)) := by
  refine ⟨?_, by decide, fun h => absurd (h.2.2 '\n' (by decide)) (by decide), ?_⟩
  · intro s
    unfold validate_username UsernameSpecPy
    split
    · rename_i hcond
      simp only [Bool.or_eq_true, decide_eq_true_eq] at hcond
      constructor
      · intro h; exact absurd h (by simp)
      · rintro ⟨h3, h30, -⟩
        rcases hcond with (h | h) | h
        · rw [String.isEmpty_iff s] at h
          subst h
          simp at h3
        · omega
        · omega
    · rename_i hcond
      simp only [Bool.or_eq_true, decide_eq_true_eq, not_or] at hcond
      obtain ⟨⟨-, h3⟩, h30⟩ := hcond
      rw [Bool.or_eq_true]
      constructor
      · rintro (h | h)
        · exact ⟨by omega, by omega, Or.inl ((usernameRegexBody_iff _).mp h)⟩
        · refine ⟨by omega, by omega, ?_⟩
          rcases stripFinalNewline_cases s.data with ⟨ds, hds, hstrip⟩ | hid
          · obtain ⟨hne, hall⟩ := (usernameRegexBody_iff ds).mp (hstrip ▸ h)
            exact Or.inr ⟨ds, hds, hne, hall⟩
          · exact Or.inl ((usernameRegexBody_iff _).mp (hid ▸ h))
      · rintro ⟨-, -, (⟨hne, hall⟩ | ⟨cs, hcs, hne, hall⟩)⟩
        · exact Or.inl ((usernameRegexBody_iff _).mpr ⟨hne, hall⟩)
        · right
          rw [hcs, stripFinalNewline_append_newline]
          exact (usernameRegexBody_iff cs).mpr ⟨hne, hall⟩
  · intro db un em pw salt now ttl secret hlen
    simp only [register]
    rw [if_pos hlen]

/-- Witness for C9 (amended): `"user_1"` passes the full rule, and the
too-short username `"ab"` is rejected with 400 on an empty store. -/
theorem C9_username_rule_amended_witness :
    (pyStrip "ab").length < 3
    ∧ register ⟨[], 1⟩ (some ⟨some "ab", some "x@y.co", some "Passw0rd1"⟩)
        3 10 24 "s"
      = ({ status := 400,
           error := some "El username debe tener al menos 3 caracteres" },
         ⟨[], 1⟩) :=
  ⟨by decide,
   C9_username_rule_amended.2.2.2 ⟨[], 1⟩ "ab" "x@y.co" "Passw0rd1" 3 10 24 "s"
     (by decide)⟩

/-- C8 counterexample: a correctly signed, unexpired token for subject 1
on an empty store makes the SQLite variant's profile route answer 401
`Usuario no encontrado` — not the 404 the claim requires. -/
theorem C8_profile_missing_subject_counterexample :
    jwt_decode (generate_jwt_token 1 "s" 0 24) "s" 0 = JwtResult.ok 1
    ∧ User.find_by_id ⟨[], 1⟩ 1 = none
    ∧ profile_route ⟨[], 1⟩
        (.withToken (.signed (generate_jwt_token 1 "s" 0 24))) "s" 0
      = { status := 401, error := some "Usuario no encontrado" } := by
  refine ⟨by rfl, by rfl, by rfl⟩

/-- C8 (amended): only the SQLAlchemy variant returns 404 for a valid
unexpired token whose subject has no record; in the SQLite variant the
`require_auth` middleware itself answers 401 `Usuario no encontrado` in
that case, so `get_profile`'s own 404 branch is unreachable through the
route; missing, expired and invalid tokens get 401 in both variants. -/
theorem C8_profile_missing_subject_amended :
    (∀ (db : DB) (t : SignedToken) (secret : String) (now uid : Nat),
        jwt_decode t secret now = JwtResult.ok uid →
        User.find_by_id db uid = none →
        profile_route db (.withToken (.signed t)) secret now
          = { status := 401, error := some "Usuario no encontrado" })
    ∧ (∀ (db : DB) (uid : Nat),
        User.find_by_id db uid = none →
        get_profile db (some uid)
          = { status := 404, error := some "Usuario no encontrado" })
    ∧ (∀ (db : AppDB) (t : SignedToken) (secret : String) (now uid : Nat),
        jwt_decode t secret now = JwtResult.ok uid →
        AppUser.find_by_id db uid = none →
        (app_get_profile db (.withToken (.signed t)) secret now).1
          = { status := 404, success := some false,
              message := some "Usuario no encontrado" })
    ∧ (∀ (db : DB) (t : SignedToken) (secret : String) (now : Nat),
        jwt_decode t secret now = JwtResult.expired →
        profile_route db (.withToken (.signed t)) secret now
          = { status := 401, error := some "Token expirado" })
    ∧ (∀ (db : DB) (t : SignedToken) (secret : String) (now : Nat),
        jwt_decode t secret now = JwtResult.invalid →
        profile_route db (.withToken (.signed t)) secret now
          = { status := 401, error := some "Token inválido" })
    ∧ (∀ (db : DB) (secret : String) (now : Nat),
        profile_route db .missing secret now
          = { status := 401, error := some "Token de autorización requerido" }) := by
  refine ⟨?_, ?_, ?_, ?_, ?_, ?_⟩
  · intro db t secret now uid hdec hfind
    simp [profile_route, require_auth, hdec, hfind]
  · intro db uid hfind
    simp [get_profile, hfind]
  · intro db t secret now uid hdec hfind
    simp [app_get_profile, hdec, hfind]
  · intro db t secret now hdec
    simp [profile_route, require_auth, hdec]
  · intro db t secret now hdec
    simp [profile_route, require_auth, hdec]
  · intro db secret now
    simp [profile_route, require_auth]

/-- Witness for C8 (amended) at concrete inputs: a valid token for the
absent subject 1 on empty stores, an expired token, a
signature-tampered token, and a missing header. -/
theorem C8_profile_missing_subject_amended_witness :
    profile_route ⟨[], 1⟩
        (.withToken (.signed (generate_jwt_token 1 "s" 0 24))) "s" 0
      = { status := 401, error := some "Usuario no encontrado" }
    ∧ get_profile ⟨[], 1⟩ (some 1)
      = { status := 404, error := some "Usuario no encontrado" }
    ∧ (app_get_profile ⟨[]⟩
        (.withToken (.signed (generate_jwt_token 1 "s" 0 24))) "s" 0).1
      = { status := 404, success := some false,
          message := some "Usuario no encontrado" }
    ∧ profile_route ⟨[], 1⟩
        (.withToken (.signed (generate_jwt_token 1 "s" 0 24))) "s" 25
      = { status := 401, error := some "Token expirado" }
    ∧ profile_route ⟨[], 1⟩ .missing "s" 0
      = { status := 401, error := some "Token de autorización requerido" } := by
  have h := C8_profile_missing_subject_amended
  exact ⟨h.1 ⟨[], 1⟩ _ "s" 0 1 (by rfl) (by rfl),
    h.2.1 ⟨[], 1⟩ 1 (by rfl),
    h.2.2.1 ⟨[]⟩ _ "s" 0 1 (by rfl) (by rfl),
    h.2.2.2.1 ⟨[], 1⟩ _ "s" 25 (by rfl),
    h.2.2.2.2.2 ⟨[], 1⟩ "s" 0⟩

end FlaskAuth










